import Mathlib

/-!
Verification development for the agentic-platform workflow orchestrator
(src/orchestration/orchestrator.py).

The orchestrator sequences agent steps (PROFILING, DICTIONARY, MAPPING) for a
workflow run, persists a workflow record and per-step execution-log entries, and
converts collaborator failures into values.  The embedding below translates the
control flow of AgenticOrchestrator into pure Lean functions:

* external effects (the Snowflake session writes for the execution log and the
  metrics table) are modelled by a LogSink value saying, for each kind of write
  the step executor performs, whether that write succeeds or raises;
* a collaborator call is an AgentCall: the stored procedure either returns a
  payload or raises, and takes an observed wall-clock duration;
* the mutable per-instance state (self.agent_sequence, which is initialised
  only in the constructor and therefore shared by consecutive runs through the
  same orchestrator instance) is threaded explicitly: a run receives the
  instance sequence accumulated so far and returns the final one.
-/

namespace Orchestrator

/-- Result payload of an agent call, as the orchestrator observes it.  The
orchestrator only ever inspects the status and error keys of the returned
dictionary; the failure dictionary built by the except branch of
AgenticOrchestrator._execute_agent also carries execution_time_seconds. -/
structure AgentPayload where
  status : Option String := none
  error : Option String := none
  executionTimeSeconds : Option Nat := none
  deriving Repr, DecidableEq

/-- Behaviour of one collaborator stored-procedure call: it either returns a
payload or raises with an error text, and takes an observed duration. -/
structure AgentCall where
  result : Except String AgentPayload
  duration : Nat
  deriving Repr

/-- Behaviour of the session writes AgenticOrchestrator._execute_agent performs
against the execution-log and metrics tables.  An error value models the write
raising; writes are atomic (a failed write has no effect on the row). -/
structure LogSink where
  logStart : Except String Unit
  logComplete : Except String Unit
  logFail : Except String Unit
  metricsWrite : Except String Unit

/-- Final state of one AGENT_EXECUTION_LOG row. -/
structure LogEntry where
  agentName : String
  status : String
  outputResult : Option AgentPayload := none
  errorMessage : Option String := none
  durationSeconds : Option Nat := none
  deriving Repr, DecidableEq

/-- One AGENT_METRICS row. -/
structure Metric where
  agentName : String
  metricType : String
  metricValue : Nat
  outcome : String
  deriving Repr, DecidableEq

/-- AgenticOrchestrator._record_agent_metrics: inserts two metric rows for the
execution; the insert is wrapped in try/except pass, so a failing metrics write
is swallowed and contributes nothing. -/
def record_agent_metrics (metricsWrite : Except String Unit) (agent : String)
    (duration : Nat) (outcome : String) : List Metric :=
  match metricsWrite with
  | .ok _ =>
      [ { agentName := agent, metricType := "EXECUTION_TIME",
          metricValue := duration, outcome := outcome },
        { agentName := agent, metricType := "SUCCESS_RATE",
          metricValue := if outcome = "SUCCESS" then 1 else 0, outcome := outcome } ]
  | .error _ => []

/-- The failure dictionary returned by the except branch of
AgenticOrchestrator._execute_agent. -/
def failurePayload (e : String) (d : Nat) : AgentPayload :=
  { status := some "FAILED", error := some e, executionTimeSeconds := some d }

/-- Core of AgenticOrchestrator._execute_agent, everything except the metrics
writes.  Returns: the value the Python function returns (ok) or raises (error);
the final state of the AGENT_EXECUTION_LOG row, if one was inserted; and whether
the collaborator procedure was actually invoked.  Control flow of the source:
the log-start insert runs before the try block, so its failure propagates; the
log-complete update runs inside the try block, so its failure is caught by the
except branch like a collaborator failure; the log-fail update runs inside the
except branch, so its failure propagates out of the function. -/
def execute_agent_core (logStart logComplete logFail : Except String Unit)
    (agent : String) (call : AgentCall) :
    Except String AgentPayload × Option LogEntry × Bool :=
  match logStart with
  | .error e => (.error e, none, false)
  | .ok _ =>
    match call.result with
    | .ok payload =>
      match logComplete with
      | .ok _ =>
          (.ok payload,
           some { agentName := agent, status := "COMPLETED",
                  outputResult := some payload, durationSeconds := some call.duration },
           true)
      | .error le =>
        match logFail with
        | .ok _ =>
            (.ok (failurePayload le call.duration),
             some { agentName := agent, status := "FAILED",
                    errorMessage := some le, durationSeconds := some call.duration },
             true)
        | .error e2 =>
            (.error e2, some { agentName := agent, status := "RUNNING" }, true)
    | .error ce =>
      match logFail with
      | .ok _ =>
          (.ok (failurePayload ce call.duration),
           some { agentName := agent, status := "FAILED",
                  errorMessage := some ce, durationSeconds := some call.duration },
           true)
      | .error e2 =>
          (.error e2, some { agentName := agent, status := "RUNNING" }, true)

/-- The metric rows AgenticOrchestrator._execute_agent records: SUCCESS metrics
after a successful log-complete update, FAILURE metrics at the end of the except
branch (skipped when the log-fail update itself raises, since that raise aborts
the except branch before the metrics call). -/
def stepMetrics (sink : LogSink) (agent : String) (call : AgentCall) : List Metric :=
  match sink.logStart with
  | .error _ => []
  | .ok _ =>
    match call.result with
    | .ok _ =>
      match sink.logComplete with
      | .ok _ => record_agent_metrics sink.metricsWrite agent call.duration "SUCCESS"
      | .error _ =>
        match sink.logFail with
        | .ok _ => record_agent_metrics sink.metricsWrite agent call.duration "FAILURE"
        | .error _ => []
    | .error _ =>
      match sink.logFail with
      | .ok _ => record_agent_metrics sink.metricsWrite agent call.duration "FAILURE"
      | .error _ => []

/-- Observable outcome of one AgenticOrchestrator._execute_agent invocation. -/
structure StepOutcome where
  result : Except String AgentPayload
  logEntry : Option LogEntry
  collaboratorInvoked : Bool
  metrics : List Metric

/-- AgenticOrchestrator._execute_agent. -/
def execute_agent (sink : LogSink) (agent : String) (call : AgentCall) : StepOutcome :=
  { result := (execute_agent_core sink.logStart sink.logComplete sink.logFail agent call).1,
    logEntry := (execute_agent_core sink.logStart sink.logComplete sink.logFail agent call).2.1,
    collaboratorInvoked :=
      (execute_agent_core sink.logStart sink.logComplete sink.logFail agent call).2.2,
    metrics := stepMetrics sink agent call }

/-- Accumulated observable state of one workflow run: the instance-level
agent_sequence list (shared across runs of one orchestrator instance), the
collaborators actually invoked so far in this run, the execution-log rows and
the metric rows. -/
structure RunState where
  agentSequence : List String
  invoked : List String
  logEntries : List LogEntry
  metrics : List Metric
  deriving Repr

/-- The per-step pattern of the controller (_execute_full_onboarding and
_execute_profiling_only): call _execute_agent, then append the step name to the
instance agent_sequence; when _execute_agent itself raises, the raise happens
before the append, so the sequence is unchanged. -/
def controller_step (sink : LogSink) (name : String) (call : AgentCall) (st : RunState) :
    Except String AgentPayload × RunState :=
  let so := execute_agent sink name call
  let st1 : RunState :=
    { st with
      invoked := st.invoked ++ (if so.collaboratorInvoked then [name] else []),
      logEntries := st.logEntries ++ so.logEntry.toList,
      metrics := st.metrics ++ so.metrics }
  match so.result with
  | .error e => (.error e, st1)
  | .ok payload => (.ok payload, { st1 with agentSequence := st1.agentSequence ++ [name] })

/-- Python str applied to the value of dict.get, as used in the f-string error
messages of the controller. -/
def optStr : Option String → String
  | some s => s
  | none => "None"

/-- The workflow_results dictionary the controller returns on success. -/
structure WorkflowResults where
  agentsExecuted : List String
  profiling : Option AgentPayload := none
  dictionary : Option AgentPayload := none
  mapping : Option AgentPayload := none
  summary : Option String := none
  totalDurationSeconds : Nat := 0
  deriving Repr, DecidableEq

/-- The collaborator behaviours for one run, one per agent procedure. -/
structure Collaborators where
  profiling : AgentCall
  dictionary : AgentCall
  mapping : AgentCall

/-- AgenticOrchestrator._generate_workflow_summary: asks the AI completion
service for a summary; on any failure of that call it falls back to the
deterministic template built from the number of agents executed. -/
def generate_workflow_summary (ai : Except String String) (results : WorkflowResults) : String :=
  match ai with
  | .ok s => s
  | .error _ =>
      "Workflow completed with " ++ toString results.agentsExecuted.length ++ " agents executed."

/-- AgenticOrchestrator._execute_full_onboarding: runs PROFILING, DICTIONARY and
MAPPING in order; after each step it appends the step name and then raises when
the returned payload carries status FAILED, which aborts the remaining steps. -/
def execute_full_onboarding (collabs : Collaborators) (ai : Except String String)
    (sink : LogSink) (st : RunState) : Except String WorkflowResults × RunState :=
  let r1 := controller_step sink "PROFILING" collabs.profiling st
  match r1.1 with
  | .error e => (.error e, r1.2)
  | .ok p =>
    if p.status = some "FAILED" then
      (.error ("Profiling agent failed: " ++ optStr p.error), r1.2)
    else
      let r2 := controller_step sink "DICTIONARY" collabs.dictionary r1.2
      match r2.1 with
      | .error e => (.error e, r2.2)
      | .ok d =>
        if d.status = some "FAILED" then
          (.error ("Dictionary agent failed: " ++ optStr d.error), r2.2)
        else
          let r3 := controller_step sink "MAPPING" collabs.mapping r2.2
          match r3.1 with
          | .error e => (.error e, r3.2)
          | .ok m =>
            if m.status = some "FAILED" then
              (.error ("Mapping agent failed: " ++ optStr m.error), r3.2)
            else
              let base : WorkflowResults :=
                { agentsExecuted := ["PROFILING", "DICTIONARY", "MAPPING"],
                  profiling := some p, dictionary := some d, mapping := some m,
                  totalDurationSeconds :=
                    collabs.profiling.duration + collabs.dictionary.duration +
                      collabs.mapping.duration }
              (.ok { base with summary := some (generate_workflow_summary ai base) }, r3.2)

/-- AgenticOrchestrator._execute_profiling_only: runs the PROFILING step and
returns its payload in the results dictionary without inspecting the payload
status (there is no FAILED check on this path in the source). -/
def execute_profiling_only (collabs : Collaborators) (sink : LogSink) (st : RunState) :
    Except String WorkflowResults × RunState :=
  let r1 := controller_step sink "PROFILING" collabs.profiling st
  match r1.1 with
  | .error e => (.error e, r1.2)
  | .ok p =>
      (.ok { agentsExecuted := ["PROFILING"], profiling := some p,
             totalDurationSeconds := collabs.profiling.duration }, r1.2)

/-- One WORKFLOW_EXECUTIONS row; statusHistory records every value written to
the STATUS column for this row, in write order. -/
structure WorkflowRecord where
  workflowType : String
  statusHistory : List String
  errorMessage : Option String := none
  agentSequence : Option (List String) := none
  durationSeconds : Option Nat := none
  endTimeSet : Bool := false
  deriving Repr, DecidableEq

/-- The STATUS column value currently visible on the row. -/
def WorkflowRecord.currentStatus (r : WorkflowRecord) : String :=
  r.statusHistory.getLastD "INITIATED"

/-- Everything one call of the entry point produces: the returned or raised
value, the workflow record the run created and persisted, the final
instance-level agent_sequence, the collaborators invoked, the execution-log
rows and the metric rows. -/
structure RunOutput where
  result : Except String WorkflowResults
  record : WorkflowRecord
  finalSequence : List String
  invoked : List String
  logEntries : List LogEntry
  metrics : List Metric

/-- Terminal bookkeeping of execute_onboarding_workflow: on a normal result
_complete_workflow writes COMPLETED together with the duration and the
instance-level agent_sequence; on an exception _fail_workflow writes FAILED
with the error message and end time only (neither duration_seconds nor
agent_sequence is written on this path in the source) and the exception is
re-raised to the caller. -/
def finishRun (wtype : String) (res : Except String WorkflowResults) (st : RunState) :
    RunOutput :=
  match res with
  | .ok results =>
      { result := .ok results,
        record := { workflowType := wtype,
                    statusHistory := ["INITIATED", "IN_PROGRESS", "COMPLETED"],
                    agentSequence := some st.agentSequence,
                    durationSeconds := some results.totalDurationSeconds,
                    endTimeSet := true },
        finalSequence := st.agentSequence, invoked := st.invoked,
        logEntries := st.logEntries, metrics := st.metrics }
  | .error e =>
      { result := .error e,
        record := { workflowType := wtype,
                    statusHistory := ["INITIATED", "IN_PROGRESS", "FAILED"],
                    errorMessage := some e, endTimeSet := true },
        finalSequence := st.agentSequence, invoked := st.invoked,
        logEntries := st.logEntries, metrics := st.metrics }

/-- AgenticOrchestrator.execute_onboarding_workflow, the entry point: it first
creates the workflow record (status INITIATED, immediately advanced to
IN_PROGRESS), then dispatches on workflow_type inside the try block; an unknown
type raises ValueError there, MAPPING_ONLY raises NotImplementedError, and any
exception is routed through _fail_workflow before being re-raised.  seq0 is the
instance-level agent_sequence accumulated by earlier runs through the same
orchestrator instance (empty for a fresh instance). -/
def execute_onboarding_workflow (wtype : String) (collabs : Collaborators)
    (ai : Except String String) (sink : LogSink) (seq0 : List String) : RunOutput :=
  let st0 : RunState := { agentSequence := seq0, invoked := [], logEntries := [], metrics := [] }
  let step :=
    if wtype = "ONBOARDING" then execute_full_onboarding collabs ai sink st0
    else if wtype = "PROFILING_ONLY" then execute_profiling_only collabs sink st0
    else if wtype = "MAPPING_ONLY" then
      (.error "MAPPING_ONLY workflow requires existing dictionary results", st0)
    else (.error ("Unknown workflow type: " ++ wtype), st0)
  finishRun wtype step.1 step.2

/-- The supported workflow_type enumeration. -/
def supportedWorkflowTypes : List String := ["ONBOARDING", "PROFILING_ONLY", "MAPPING_ONLY"]

/-- The fixed step plan for each workflow type. -/
def planFor (wtype : String) : List String :=
  if wtype = "ONBOARDING" then ["PROFILING", "DICTIONARY", "MAPPING"]
  else if wtype = "PROFILING_ONLY" then ["PROFILING"]
  else []

/-- Boolean initial-segment test on step lists. -/
def isInitialSegmentOf : List String → List String → Bool
  | [], _ => true
  | _ :: _, [] => false
  | s :: ss, p :: ps => (s == p) && isInitialSegmentOf ss ps

/-- A sink on which every session write succeeds. -/
def goodSink : LogSink :=
  { logStart := .ok (), logComplete := .ok (), logFail := .ok (), metricsWrite := .ok () }

/-- A sink on which every session write raises. -/
def throwingSink : LogSink :=
  { logStart := .error "log sink down", logComplete := .error "log sink down",
    logFail := .error "log sink down", metricsWrite := .error "log sink down" }

/-- A collaborator call that returns normally with an empty payload (the
success dictionaries of the agents carry no status key). -/
def okCall : AgentCall := { result := .ok {}, duration := 1 }

/-- All three collaborators succeed. -/
def allOk : Collaborators := { profiling := okCall, dictionary := okCall, mapping := okCall }

/-- A collaborator call that raises with message boom. -/
def boomCall : AgentCall := { result := .error "boom", duration := 7 }

/-- Collaborators where only the PROFILING procedure raises. -/
def profBoomCollabs : Collaborators :=
  { profiling := boomCall, dictionary := okCall, mapping := okCall }

/-- Collaborators where only the DICTIONARY procedure raises. -/
def dictBoomCollabs : Collaborators :=
  { profiling := okCall, dictionary := boomCall, mapping := okCall }

/-! ### Helper lemmas about the step executor and the controller step -/

theorem controller_step_goodSink_ok (name : String) (call : AgentCall) (p : AgentPayload)
    (h : call.result = .ok p) (st : RunState) :
    controller_step goodSink name call st =
      (.ok p,
       { st with
         agentSequence := st.agentSequence ++ [name],
         invoked := st.invoked ++ [name],
         logEntries := st.logEntries ++
           [{ agentName := name, status := "COMPLETED", outputResult := some p,
              durationSeconds := some call.duration }],
         metrics := st.metrics ++
           record_agent_metrics (.ok ()) name call.duration "SUCCESS" }) := by
  simp [controller_step, execute_agent, execute_agent_core, stepMetrics, goodSink, h]

theorem controller_step_goodSink_raise (name : String) (call : AgentCall) (e : String)
    (h : call.result = .error e) (st : RunState) :
    controller_step goodSink name call st =
      (.ok (failurePayload e call.duration),
       { st with
         agentSequence := st.agentSequence ++ [name],
         invoked := st.invoked ++ [name],
         logEntries := st.logEntries ++
           [{ agentName := name, status := "FAILED", errorMessage := some e,
              durationSeconds := some call.duration }],
         metrics := st.metrics ++
           record_agent_metrics (.ok ()) name call.duration "FAILURE" }) := by
  simp [controller_step, execute_agent, execute_agent_core, stepMetrics, goodSink, h]

theorem controller_step_err_seq (sink : LogSink) (name : String) (call : AgentCall)
    (st : RunState) (e : String) (h : (controller_step sink name call st).1 = .error e) :
    (controller_step sink name call st).2.agentSequence = st.agentSequence := by
  unfold controller_step at h ⊢
  cases hr : (execute_agent sink name call).result <;> simp [hr] at h ⊢

theorem controller_step_ok_seq (sink : LogSink) (name : String) (call : AgentCall)
    (st : RunState) (p : AgentPayload) (h : (controller_step sink name call st).1 = .ok p) :
    (controller_step sink name call st).2.agentSequence = st.agentSequence ++ [name] := by
  unfold controller_step at h ⊢
  cases hr : (execute_agent sink name call).result <;> simp [hr] at h ⊢

theorem finishRun_history (w : String) (res : Except String WorkflowResults) (st : RunState) :
    (finishRun w res st).record.statusHistory = ["INITIATED", "IN_PROGRESS", "COMPLETED"] ∨
    (finishRun w res st).record.statusHistory = ["INITIATED", "IN_PROGRESS", "FAILED"] := by
  cases res <;> simp [finishRun]

theorem finishRun_error (w : String) (res : Except String WorkflowResults) (st : RunState)
    (e : String) (h : (finishRun w res st).result = .error e) :
    (finishRun w res st).record =
      { workflowType := w, statusHistory := ["INITIATED", "IN_PROGRESS", "FAILED"],
        errorMessage := some e, agentSequence := none, durationSeconds := none,
        endTimeSet := true } := by
  cases res with
  | ok r => simp [finishRun] at h
  | error e2 =>
      simp [finishRun] at h
      subst h
      rfl

/-! ### Claim C1 -/

/-- C1 counterexample: calling the entry point with workflow_type BOGUS does raise
the Unknown workflow type error, but a WorkflowRecord for the call is created and
persisted all the same — it ends with terminal status FAILED — contradicting the
claim that no WorkflowRecord is ever created or persisted for such a call. -/
theorem C1_unknownType_recordCreated_counterexample :
    (execute_onboarding_workflow "BOGUS" allOk (.ok "s") goodSink []).result
        = .error "Unknown workflow type: BOGUS" ∧
    (execute_onboarding_workflow "BOGUS" allOk (.ok "s") goodSink []).record.statusHistory
        = ["INITIATED", "IN_PROGRESS", "FAILED"] ∧
    (execute_onboarding_workflow "BOGUS" allOk (.ok "s") goodSink []).record.endTimeSet
        = true := by
  refine ⟨rfl, rfl, rfl⟩

/-- C1 amended: for every unsupported workflow_type the entry point raises the
Unknown workflow type error and no agent collaborator is ever invoked, but a
WorkflowRecord is created and persisted before the dispatch runs; the record is
left with terminal status FAILED carrying that error message. -/
theorem C1_unknownType_failsAfterRecordCreation (wtype : String)
    (h : wtype ∉ supportedWorkflowTypes) (collabs : Collaborators)
    (ai : Except String String) (sink : LogSink) (seq0 : List String) :
    (execute_onboarding_workflow wtype collabs ai sink seq0).result
        = .error ("Unknown workflow type: " ++ wtype) ∧
    (execute_onboarding_workflow wtype collabs ai sink seq0).record
        = { workflowType := wtype,
            statusHistory := ["INITIATED", "IN_PROGRESS", "FAILED"],
            errorMessage := some ("Unknown workflow type: " ++ wtype),
            endTimeSet := true } ∧
    (execute_onboarding_workflow wtype collabs ai sink seq0).invoked = [] := by
  have h1 : ¬ wtype = "ONBOARDING" := by
    intro he; exact h (by simp [supportedWorkflowTypes, he])
  have h2 : ¬ wtype = "PROFILING_ONLY" := by
    intro he; exact h (by simp [supportedWorkflowTypes, he])
  have h3 : ¬ wtype = "MAPPING_ONLY" := by
    intro he; exact h (by simp [supportedWorkflowTypes, he])
  refine ⟨?_, ?_, ?_⟩ <;>
    simp [execute_onboarding_workflow, finishRun, h1, h2, h3]

/-- C1 witness: the amended statement instantiated at workflow_type BOGUS with
all collaborators succeeding and a fully working sink. -/
theorem C1_unknownType_witness :
    (execute_onboarding_workflow "BOGUS" allOk (.ok "s2") goodSink []).result
        = .error ("Unknown workflow type: " ++ "BOGUS") ∧
    (execute_onboarding_workflow "BOGUS" allOk (.ok "s2") goodSink []).record
        = { workflowType := "BOGUS",
            statusHistory := ["INITIATED", "IN_PROGRESS", "FAILED"],
            errorMessage := some ("Unknown workflow type: " ++ "BOGUS"),
            endTimeSet := true } ∧
    (execute_onboarding_workflow "BOGUS" allOk (.ok "s2") goodSink []).invoked = [] :=
  C1_unknownType_failsAfterRecordCreation "BOGUS" (by decide) allOk (.ok "s2") goodSink []

/-! ### Claim C2 -/

/-- C2: against the claim, a PROFILING_ONLY run whose single PROFILING step fails
(the collaborator raises boom) terminates with workflow status COMPLETED, not
FAILED, and returns a normal results value embedding the FAILED step payload —
_execute_profiling_only never inspects the step status, unlike the ONBOARDING
path, so the failure is silently treated as success. -/
theorem C2_profilingOnly_failedStep_completed :
    (execute_onboarding_workflow "PROFILING_ONLY" profBoomCollabs (.ok "s") goodSink
        []).record.statusHistory = ["INITIATED", "IN_PROGRESS", "COMPLETED"] ∧
    (execute_onboarding_workflow "PROFILING_ONLY" profBoomCollabs (.ok "s") goodSink
        []).result
      = .ok { agentsExecuted := ["PROFILING"], profiling := some (failurePayload "boom" 7),
              totalDurationSeconds := 7 } := by
  refine ⟨rfl, rfl⟩

/-! ### Claim C3 -/

/-- C3: as long as the execution-log writes themselves succeed, _execute_agent
never raises, whatever the collaborator does: on a normal return it returns the
collaborator payload, and on the collaborator raising any error it returns the
FAILED payload carrying the error text and the measured duration — failures are
reported as values, never propagated to the controller as exceptions. -/
theorem C3_stepExecutor_neverRaises (sink : LogSink) (agent : String) (call : AgentCall)
    (h1 : sink.logStart = .ok ()) (h2 : sink.logComplete = .ok ())
    (h3 : sink.logFail = .ok ()) :
    (execute_agent sink agent call).result
      = .ok (match call.result with
             | .ok p => p
             | .error e => failurePayload e call.duration) := by
  cases hc : call.result <;>
    simp [execute_agent, execute_agent_core, h1, h2, h3, hc]

/-- C3 witness: the step executor applied, over a fully working sink, to a
collaborator that raises boom returns the FAILED value instead of raising. -/
theorem C3_stepExecutor_witness :
    (execute_agent goodSink "PROFILING" boomCall).result
      = .ok (failurePayload "boom" 7) := by
  exact C3_stepExecutor_neverRaises goodSink "PROFILING" boomCall rfl rfl rfl

/-! ### Claim C4 -/

/-- C4 counterexample: with an execution-log sink on which every write throws,
the step executor raises instead of returning a step result even though the
collaborator succeeded, and an ONBOARDING run whose three collaborators all
succeed still terminates FAILED — so log-write failures do change the returned
step result and the workflow outcome, against the claim. -/
theorem C4_throwingLogSink_changesOutcome_counterexample :
    (execute_agent throwingSink "PROFILING" okCall).result = .error "log sink down" ∧
    (execute_onboarding_workflow "ONBOARDING" allOk (.ok "s") throwingSink
        []).record.statusHistory = ["INITIATED", "IN_PROGRESS", "FAILED"] := by
  refine ⟨rfl, rfl⟩

theorem controller_step_eq_logSinks (s1 s2 : LogSink) (h1 : s1.logStart = s2.logStart)
    (h2 : s1.logComplete = s2.logComplete) (h3 : s1.logFail = s2.logFail)
    (name : String) (call : AgentCall) (st1 st2 : RunState)
    (hseq : st1.agentSequence = st2.agentSequence) :
    (controller_step s1 name call st1).1 = (controller_step s2 name call st2).1 ∧
    (controller_step s1 name call st1).2.agentSequence
      = (controller_step s2 name call st2).2.agentSequence := by
  have hr : (execute_agent s1 name call).result = (execute_agent s2 name call).result := by
    simp [execute_agent, h1, h2, h3]
  unfold controller_step
  cases hE : (execute_agent s1 name call).result with
  | error e =>
      have hE2 : (execute_agent s2 name call).result = .error e := hr.symm.trans hE
      simp [hE, hE2, hseq]
  | ok p =>
      have hE2 : (execute_agent s2 name call).result = .ok p := hr.symm.trans hE
      simp [hE, hE2, hseq]

theorem execute_full_onboarding_eq_logSinks (s1 s2 : LogSink)
    (h1 : s1.logStart = s2.logStart) (h2 : s1.logComplete = s2.logComplete)
    (h3 : s1.logFail = s2.logFail) (collabs : Collaborators) (ai : Except String String)
    (st1 st2 : RunState) (hseq : st1.agentSequence = st2.agentSequence) :
    (execute_full_onboarding collabs ai s1 st1).1
      = (execute_full_onboarding collabs ai s2 st2).1 ∧
    (execute_full_onboarding collabs ai s1 st1).2.agentSequence
      = (execute_full_onboarding collabs ai s2 st2).2.agentSequence := by
  obtain ⟨hp, hps⟩ :=
    controller_step_eq_logSinks s1 s2 h1 h2 h3 "PROFILING" collabs.profiling st1 st2 hseq
  unfold execute_full_onboarding
  cases hP : (controller_step s1 "PROFILING" collabs.profiling st1).1 with
  | error e =>
      have hP2 : (controller_step s2 "PROFILING" collabs.profiling st2).1 = .error e :=
        hp.symm.trans hP
      simp [hP, hP2, hps]
  | ok p =>
      have hP2 : (controller_step s2 "PROFILING" collabs.profiling st2).1 = .ok p :=
        hp.symm.trans hP
      by_cases hf : p.status = some "FAILED"
      · simp [hP, hP2, hf, hps]
      · obtain ⟨hd, hds⟩ :=
          controller_step_eq_logSinks s1 s2 h1 h2 h3 "DICTIONARY" collabs.dictionary
            (controller_step s1 "PROFILING" collabs.profiling st1).2
            (controller_step s2 "PROFILING" collabs.profiling st2).2 hps
        cases hD : (controller_step s1 "DICTIONARY" collabs.dictionary
            (controller_step s1 "PROFILING" collabs.profiling st1).2).1 with
        | error e =>
            have hD2 : (controller_step s2 "DICTIONARY" collabs.dictionary
                (controller_step s2 "PROFILING" collabs.profiling st2).2).1 = .error e :=
              hd.symm.trans hD
            simp [hP, hP2, hf, hD, hD2, hds]
        | ok d =>
            have hD2 : (controller_step s2 "DICTIONARY" collabs.dictionary
                (controller_step s2 "PROFILING" collabs.profiling st2).2).1 = .ok d :=
              hd.symm.trans hD
            by_cases hg : d.status = some "FAILED"
            · simp [hP, hP2, hf, hD, hD2, hg, hds]
            · obtain ⟨hm, hms⟩ :=
                controller_step_eq_logSinks s1 s2 h1 h2 h3 "MAPPING" collabs.mapping
                  (controller_step s1 "DICTIONARY" collabs.dictionary
                    (controller_step s1 "PROFILING" collabs.profiling st1).2).2
                  (controller_step s2 "DICTIONARY" collabs.dictionary
                    (controller_step s2 "PROFILING" collabs.profiling st2).2).2 hds
              cases hM : (controller_step s1 "MAPPING" collabs.mapping
                  (controller_step s1 "DICTIONARY" collabs.dictionary
                    (controller_step s1 "PROFILING" collabs.profiling st1).2).2).1 with
              | error e =>
                  have hM2 : (controller_step s2 "MAPPING" collabs.mapping
                      (controller_step s2 "DICTIONARY" collabs.dictionary
                        (controller_step s2 "PROFILING" collabs.profiling st2).2).2).1
                      = .error e := hm.symm.trans hM
                  simp [hP, hP2, hf, hD, hD2, hg, hM, hM2, hms]
              | ok m =>
                  have hM2 : (controller_step s2 "MAPPING" collabs.mapping
                      (controller_step s2 "DICTIONARY" collabs.dictionary
                        (controller_step s2 "PROFILING" collabs.profiling st2).2).2).1
                      = .ok m := hm.symm.trans hM
                  by_cases hh : m.status = some "FAILED" <;>
                    simp [hP, hP2, hf, hD, hD2, hg, hM, hM2, hh, hms]

theorem execute_profiling_only_eq_logSinks (s1 s2 : LogSink)
    (h1 : s1.logStart = s2.logStart) (h2 : s1.logComplete = s2.logComplete)
    (h3 : s1.logFail = s2.logFail) (collabs : Collaborators)
    (st1 st2 : RunState) (hseq : st1.agentSequence = st2.agentSequence) :
    (execute_profiling_only collabs s1 st1).1 = (execute_profiling_only collabs s2 st2).1 ∧
    (execute_profiling_only collabs s1 st1).2.agentSequence
      = (execute_profiling_only collabs s2 st2).2.agentSequence := by
  obtain ⟨hp, hps⟩ :=
    controller_step_eq_logSinks s1 s2 h1 h2 h3 "PROFILING" collabs.profiling st1 st2 hseq
  unfold execute_profiling_only
  cases hP : (controller_step s1 "PROFILING" collabs.profiling st1).1 with
  | error e =>
      have hP2 : (controller_step s2 "PROFILING" collabs.profiling st2).1 = .error e :=
        hp.symm.trans hP
      simp [hP, hP2, hps]
  | ok p =>
      have hP2 : (controller_step s2 "PROFILING" collabs.profiling st2).1 = .ok p :=
        hp.symm.trans hP
      simp [hP, hP2, hps]

theorem finishRun_congr (w : String) (r1 r2 : Except String WorkflowResults)
    (st1 st2 : RunState) (hr : r1 = r2) (hs : st1.agentSequence = st2.agentSequence) :
    (finishRun w r1 st1).result = (finishRun w r2 st2).result ∧
    (finishRun w r1 st1).record = (finishRun w r2 st2).record := by
  subst hr
  cases r1 <;> simp [finishRun, hs]

theorem run_eq_logSinks (s1 s2 : LogSink) (h1 : s1.logStart = s2.logStart)
    (h2 : s1.logComplete = s2.logComplete) (h3 : s1.logFail = s2.logFail)
    (wtype : String) (collabs : Collaborators) (ai : Except String String)
    (seq0 : List String) :
    (execute_onboarding_workflow wtype collabs ai s1 seq0).result
      = (execute_onboarding_workflow wtype collabs ai s2 seq0).result ∧
    (execute_onboarding_workflow wtype collabs ai s1 seq0).record
      = (execute_onboarding_workflow wtype collabs ai s2 seq0).record := by
  unfold execute_onboarding_workflow
  by_cases hw : wtype = "ONBOARDING"
  · obtain ⟨hres, hseq⟩ := execute_full_onboarding_eq_logSinks s1 s2 h1 h2 h3 collabs ai
      { agentSequence := seq0, invoked := [], logEntries := [], metrics := [] }
      { agentSequence := seq0, invoked := [], logEntries := [], metrics := [] } rfl
    simp only [hw, if_pos rfl]
    exact finishRun_congr _ _ _ _ _ hres hseq
  · by_cases hw2 : wtype = "PROFILING_ONLY"
    · obtain ⟨hres, hseq⟩ := execute_profiling_only_eq_logSinks s1 s2 h1 h2 h3 collabs
        { agentSequence := seq0, invoked := [], logEntries := [], metrics := [] }
        { agentSequence := seq0, invoked := [], logEntries := [], metrics := [] } rfl
      simp only [hw, hw2, if_neg, if_pos rfl]
      exact finishRun_congr _ _ _ _ _ hres hseq
    · constructor <;> simp only [if_neg hw, if_neg hw2]

/-- C4 amended: a failure of a metrics write never changes the returned step
result, nor the run result, nor the persisted workflow record: replacing the
metrics-write behaviour of any sink leaves all three unchanged.  Execution-log
write failures, by contrast, do change the outcome (see the counterexample):
a failing log-start write propagates out of the step executor as an exception,
and a failing log-complete write converts a collaborator success into a FAILED
step result. -/
theorem C4_metricsFailure_neverChangesOutcome (s : LogSink) (m1 m2 : Except String Unit)
    (agent : String) (call : AgentCall) (wtype : String) (collabs : Collaborators)
    (ai : Except String String) (seq0 : List String) :
    (execute_agent { s with metricsWrite := m1 } agent call).result
      = (execute_agent { s with metricsWrite := m2 } agent call).result ∧
    (execute_onboarding_workflow wtype collabs ai { s with metricsWrite := m1 } seq0).result
      = (execute_onboarding_workflow wtype collabs ai { s with metricsWrite := m2 } seq0).result ∧
    (execute_onboarding_workflow wtype collabs ai { s with metricsWrite := m1 } seq0).record
      = (execute_onboarding_workflow wtype collabs ai { s with metricsWrite := m2 } seq0).record := by
  have h := run_eq_logSinks { s with metricsWrite := m1 } { s with metricsWrite := m2 }
    rfl rfl rfl wtype collabs ai seq0
  exact ⟨by simp [execute_agent], h.1, h.2⟩

/-! ### Claim C5 -/

/-- C5: in an ONBOARDING run whose PROFILING step succeeds and whose DICTIONARY
step fails (the collaborator raises, or returns a payload saying FAILED), the
controller stops at once: the workflow terminates FAILED, the steps attempted
are exactly PROFILING then DICTIONARY, and each collaborator was invoked at most
once with MAPPING never invoked — no retry happens at this layer. -/
theorem C5_onboarding_dictionaryFailure_stopsImmediately
    (collabs : Collaborators) (ai : Except String String) (seq0 : List String)
    (p : AgentPayload) (hp : collabs.profiling.result = .ok p)
    (hps : ¬ p.status = some "FAILED")
    (hd : (∃ e, collabs.dictionary.result = .error e) ∨
          (∃ q, collabs.dictionary.result = .ok q ∧ q.status = some "FAILED")) :
    (execute_onboarding_workflow "ONBOARDING" collabs ai goodSink seq0).record.statusHistory
        = ["INITIATED", "IN_PROGRESS", "FAILED"] ∧
    (execute_onboarding_workflow "ONBOARDING" collabs ai goodSink seq0).finalSequence
        = seq0 ++ ["PROFILING", "DICTIONARY"] ∧
    (execute_onboarding_workflow "ONBOARDING" collabs ai goodSink seq0).invoked
        = ["PROFILING", "DICTIONARY"] := by
  rcases hd with ⟨e, he⟩ | ⟨q, hq, hqs⟩
  · refine ⟨?_, ?_, ?_⟩ <;>
      simp [execute_onboarding_workflow, execute_full_onboarding, finishRun,
        controller_step_goodSink_ok "PROFILING" collabs.profiling p hp,
        controller_step_goodSink_raise "DICTIONARY" collabs.dictionary e he,
        hps, failurePayload]
  · refine ⟨?_, ?_, ?_⟩ <;>
      simp [execute_onboarding_workflow, execute_full_onboarding, finishRun,
        controller_step_goodSink_ok "PROFILING" collabs.profiling p hp,
        controller_step_goodSink_ok "DICTIONARY" collabs.dictionary q hq,
        hps, hqs]

/-- C5 witness: the theorem applied to concrete collaborators where PROFILING
succeeds and the DICTIONARY procedure raises boom. -/
theorem C5_onboarding_dictionaryFailure_witness :
    (execute_onboarding_workflow "ONBOARDING" dictBoomCollabs (.ok "s") goodSink
        []).record.statusHistory = ["INITIATED", "IN_PROGRESS", "FAILED"] ∧
    (execute_onboarding_workflow "ONBOARDING" dictBoomCollabs (.ok "s") goodSink
        []).finalSequence = [] ++ ["PROFILING", "DICTIONARY"] ∧
    (execute_onboarding_workflow "ONBOARDING" dictBoomCollabs (.ok "s") goodSink
        []).invoked = ["PROFILING", "DICTIONARY"] :=
  C5_onboarding_dictionaryFailure_stopsImmediately dictBoomCollabs (.ok "s") [] {}
    rfl (by simp) (Or.inl ⟨"boom", rfl⟩)

/-! ### Claim C6 -/

/-- C6 counterexample: an ONBOARDING run failed by its DICTIONARY step persists
a FAILED record that carries the error message, but neither step_sequence nor
duration_seconds is set on it — _fail_workflow updates only status, end time and
error message, against the claim that step_sequence and duration_seconds are
written on failure. -/
theorem C6_failedRecord_missingFields_counterexample :
    (execute_onboarding_workflow "ONBOARDING" dictBoomCollabs (.ok "s") goodSink []).record
      = { workflowType := "ONBOARDING",
          statusHistory := ["INITIATED", "IN_PROGRESS", "FAILED"],
          errorMessage := some "Dictionary agent failed: boom",
          agentSequence := none, durationSeconds := none, endTimeSet := true } := by
  rfl

/-- C6 amended: whenever a workflow run ends FAILED, the persisted record
carries the failing error as error_message and has its end time set, but the
failure path writes neither step_sequence nor duration_seconds — both stay
unset; duration_seconds is only written on the COMPLETED path. -/
theorem C6_failWorkflow_persistsErrorOnly (wtype : String) (collabs : Collaborators)
    (ai : Except String String) (sink : LogSink) (seq0 : List String) (e : String)
    (h : (execute_onboarding_workflow wtype collabs ai sink seq0).result = .error e) :
    (execute_onboarding_workflow wtype collabs ai sink seq0).record
      = { workflowType := wtype, statusHistory := ["INITIATED", "IN_PROGRESS", "FAILED"],
          errorMessage := some e, agentSequence := none, durationSeconds := none,
          endTimeSet := true } := by
  unfold execute_onboarding_workflow at h ⊢
  exact finishRun_error _ _ _ _ h

/-- C6 witness: the amended statement instantiated at a MAPPING_ONLY run, which
always fails with the NotImplemented message. -/
theorem C6_failWorkflow_witness :
    (execute_onboarding_workflow "MAPPING_ONLY" allOk (.ok "s") goodSink []).record
      = { workflowType := "MAPPING_ONLY",
          statusHistory := ["INITIATED", "IN_PROGRESS", "FAILED"],
          errorMessage := some "MAPPING_ONLY workflow requires existing dictionary results",
          agentSequence := none, durationSeconds := none, endTimeSet := true } :=
  C6_failWorkflow_persistsErrorOnly "MAPPING_ONLY" allOk (.ok "s") goodSink []
    "MAPPING_ONLY workflow requires existing dictionary results" rfl

/-! ### Claim C7 -/

/-- Discriminator for a raised versus returned controller result. -/
def isOkB {α : Type} : Except String α → Bool
  | .ok _ => true
  | .error _ => false

theorem finishRun_result (w : String) (res : Except String WorkflowResults) (st : RunState) :
    (finishRun w res st).result = res := by
  cases res <;> simp [finishRun]

theorem finishRun_finalSequence (w : String) (res : Except String WorkflowResults)
    (st : RunState) : (finishRun w res st).finalSequence = st.agentSequence := by
  cases res <;> simp [finishRun]

theorem finishRun_history_isOkB (w : String) (res : Except String WorkflowResults)
    (st : RunState) :
    (finishRun w res st).record.statusHistory
      = if isOkB res then ["INITIATED", "IN_PROGRESS", "COMPLETED"]
        else ["INITIATED", "IN_PROGRESS", "FAILED"] := by
  cases res <;> simp [finishRun, isOkB]

theorem finishRun_agentSequence (w : String) (res : Except String WorkflowResults)
    (st : RunState) :
    (finishRun w res st).record.agentSequence
      = if isOkB res then some st.agentSequence else none := by
  cases res <;> simp [finishRun, isOkB]

theorem execute_full_onboarding_cases (collabs : Collaborators) (ai : Except String String)
    (sink : LogSink) (st : RunState) :
    (isOkB (execute_full_onboarding collabs ai sink st).1 = false ∧
      ((execute_full_onboarding collabs ai sink st).2.agentSequence = st.agentSequence ∨
       (execute_full_onboarding collabs ai sink st).2.agentSequence
         = st.agentSequence ++ ["PROFILING"] ∨
       (execute_full_onboarding collabs ai sink st).2.agentSequence
         = st.agentSequence ++ ["PROFILING", "DICTIONARY"] ∨
       (execute_full_onboarding collabs ai sink st).2.agentSequence
         = st.agentSequence ++ ["PROFILING", "DICTIONARY", "MAPPING"])) ∨
    (isOkB (execute_full_onboarding collabs ai sink st).1 = true ∧
      (execute_full_onboarding collabs ai sink st).2.agentSequence
        = st.agentSequence ++ ["PROFILING", "DICTIONARY", "MAPPING"]) := by
  cases hP : (controller_step sink "PROFILING" collabs.profiling st).1 with
  | error e =>
      have hs1 := controller_step_err_seq sink "PROFILING" collabs.profiling st e hP
      refine Or.inl ⟨?_, Or.inl ?_⟩ <;>
        simp [execute_full_onboarding, isOkB, hP, hs1]
  | ok p =>
      have hs1 := controller_step_ok_seq sink "PROFILING" collabs.profiling st p hP
      by_cases hf : p.status = some "FAILED"
      · refine Or.inl ⟨?_, Or.inr (Or.inl ?_)⟩ <;>
          simp [execute_full_onboarding, isOkB, hP, hf, hs1]
      · cases hD : (controller_step sink "DICTIONARY" collabs.dictionary
            (controller_step sink "PROFILING" collabs.profiling st).2).1 with
        | error e =>
            have hs2 := controller_step_err_seq sink "DICTIONARY" collabs.dictionary
              (controller_step sink "PROFILING" collabs.profiling st).2 e hD
            refine Or.inl ⟨?_, Or.inr (Or.inl ?_)⟩ <;>
              simp [execute_full_onboarding, isOkB, hP, hf, hD, hs2, hs1]
        | ok d =>
            have hs2 := controller_step_ok_seq sink "DICTIONARY" collabs.dictionary
              (controller_step sink "PROFILING" collabs.profiling st).2 d hD
            by_cases hg : d.status = some "FAILED"
            · refine Or.inl ⟨?_, Or.inr (Or.inr (Or.inl ?_))⟩ <;>
                simp [execute_full_onboarding, isOkB, hP, hf, hD, hg, hs2, hs1]
            · cases hM : (controller_step sink "MAPPING" collabs.mapping
                  (controller_step sink "DICTIONARY" collabs.dictionary
                    (controller_step sink "PROFILING" collabs.profiling st).2).2).1 with
              | error e =>
                  have hs3 := controller_step_err_seq sink "MAPPING" collabs.mapping
                    (controller_step sink "DICTIONARY" collabs.dictionary
                      (controller_step sink "PROFILING" collabs.profiling st).2).2 e hM
                  refine Or.inl ⟨?_, Or.inr (Or.inr (Or.inl ?_))⟩ <;>
                    simp [execute_full_onboarding, isOkB, hP, hf, hD, hg, hM, hs3, hs2, hs1]
              | ok m =>
                  have hs3 := controller_step_ok_seq sink "MAPPING" collabs.mapping
                    (controller_step sink "DICTIONARY" collabs.dictionary
                      (controller_step sink "PROFILING" collabs.profiling st).2).2 m hM
                  by_cases hh : m.status = some "FAILED"
                  · refine Or.inl ⟨?_, Or.inr (Or.inr (Or.inr ?_))⟩ <;>
                      simp [execute_full_onboarding, isOkB, hP, hf, hD, hg, hM, hh,
                        hs3, hs2, hs1]
                  · refine Or.inr ⟨?_, ?_⟩ <;>
                      simp [execute_full_onboarding, isOkB, hP, hf, hD, hg, hM, hh,
                        hs3, hs2, hs1]

theorem execute_profiling_only_cases (collabs : Collaborators) (sink : LogSink)
    (st : RunState) :
    (isOkB (execute_profiling_only collabs sink st).1 = false ∧
      (execute_profiling_only collabs sink st).2.agentSequence = st.agentSequence) ∨
    (isOkB (execute_profiling_only collabs sink st).1 = true ∧
      (execute_profiling_only collabs sink st).2.agentSequence
        = st.agentSequence ++ ["PROFILING"]) := by
  cases hP : (controller_step sink "PROFILING" collabs.profiling st).1 with
  | error e =>
      have hs1 := controller_step_err_seq sink "PROFILING" collabs.profiling st e hP
      refine Or.inl ⟨?_, ?_⟩ <;> simp [execute_profiling_only, isOkB, hP, hs1]
  | ok p =>
      have hs1 := controller_step_ok_seq sink "PROFILING" collabs.profiling st p hP
      refine Or.inr ⟨?_, ?_⟩ <;> simp [execute_profiling_only, isOkB, hP, hs1]

/-- C7 counterexample: two consecutive successful ONBOARDING runs through the
same orchestrator instance.  The second run completes and persists a
step_sequence of six entries, repeating every step, because the instance-level
agent_sequence list initialised in the constructor is never reset between runs;
that sequence is not a prefix of the three-step plan, against the claim that
the property holds for repeated runs through the same instance. -/
theorem C7_instanceReuse_counterexample :
    (execute_onboarding_workflow "ONBOARDING" allOk (.ok "s") goodSink
        (execute_onboarding_workflow "ONBOARDING" allOk (.ok "s") goodSink
          []).finalSequence).record.agentSequence
      = some ["PROFILING", "DICTIONARY", "MAPPING", "PROFILING", "DICTIONARY", "MAPPING"] ∧
    (execute_onboarding_workflow "ONBOARDING" allOk (.ok "s") goodSink
        (execute_onboarding_workflow "ONBOARDING" allOk (.ok "s") goodSink
          []).finalSequence).record.statusHistory
      = ["INITIATED", "IN_PROGRESS", "COMPLETED"] ∧
    isInitialSegmentOf
        ["PROFILING", "DICTIONARY", "MAPPING", "PROFILING", "DICTIONARY", "MAPPING"]
        (planFor "ONBOARDING") = false := by
  refine ⟨rfl, rfl, rfl⟩

/-- C7 amended: for every run executed on a fresh orchestrator instance (empty
instance-level sequence), the steps attempted are an initial segment of the
fixed plan for the workflow type — no step skipped, reordered or repeated — and
a run that ends COMPLETED persists exactly the full plan.  On a reused
instance the persisted sequence also contains the steps of earlier runs, so
the claim holds only for the first run of each instance (see the
counterexample). -/
theorem C7_freshInstance_sequencePlanSegment (wtype : String) (collabs : Collaborators)
    (ai : Except String String) (sink : LogSink) :
    isInitialSegmentOf
        (execute_onboarding_workflow wtype collabs ai sink []).finalSequence
        (planFor wtype) = true ∧
    ((execute_onboarding_workflow wtype collabs ai sink []).record.currentStatus
        = "COMPLETED" →
      (execute_onboarding_workflow wtype collabs ai sink []).record.agentSequence
        = some (planFor wtype)) := by
  by_cases hw : wtype = "ONBOARDING"
  · subst hw
    rcases execute_full_onboarding_cases collabs ai sink
        { agentSequence := [], invoked := [], logEntries := [], metrics := [] } with
      ⟨hko, hs⟩ | ⟨hok, hs⟩
    · constructor
      · rcases hs with h | h | h | h <;>
          simp [execute_onboarding_workflow, finishRun_finalSequence, h,
            isInitialSegmentOf, planFor]
      · intro hc
        exfalso
        simp [execute_onboarding_workflow, finishRun_history_isOkB, hko,
          WorkflowRecord.currentStatus] at hc
    · constructor
      · simp [execute_onboarding_workflow, finishRun_finalSequence, hs,
          isInitialSegmentOf, planFor]
      · intro hc
        simp [execute_onboarding_workflow, finishRun_agentSequence, hok, hs, planFor]
  · by_cases hw2 : wtype = "PROFILING_ONLY"
    · subst hw2
      rcases execute_profiling_only_cases collabs sink
          { agentSequence := [], invoked := [], logEntries := [], metrics := [] } with
        ⟨hko, hs⟩ | ⟨hok, hs⟩
      · constructor
        · simp [execute_onboarding_workflow, finishRun_finalSequence, hs,
            isInitialSegmentOf, planFor]
        · intro hc
          exfalso
          simp [execute_onboarding_workflow, finishRun_history_isOkB, hko,
            WorkflowRecord.currentStatus] at hc
      · constructor
        · simp [execute_onboarding_workflow, finishRun_finalSequence, hs,
            isInitialSegmentOf, planFor]
        · intro hc
          simp [execute_onboarding_workflow, finishRun_agentSequence, hok, hs, planFor]
    · constructor
      · simp only [execute_onboarding_workflow, if_neg hw, if_neg hw2,
          finishRun_finalSequence]
        by_cases hw3 : wtype = "MAPPING_ONLY" <;> simp [hw3, isInitialSegmentOf]
      · intro hc
        exfalso
        by_cases hw3 : wtype = "MAPPING_ONLY" <;>
          simp [execute_onboarding_workflow, if_neg hw, if_neg hw2, hw3,
            WorkflowRecord.currentStatus, finishRun_history_isOkB, isOkB] at hc

/-- C7 witness: a completed fresh-instance ONBOARDING run persists exactly the
full plan as its step sequence. -/
theorem C7_freshInstance_witness :
    (execute_onboarding_workflow "ONBOARDING" allOk (.ok "s3") goodSink
        []).record.agentSequence = some (planFor "ONBOARDING") :=
  (C7_freshInstance_sequencePlanSegment "ONBOARDING" allOk (.ok "s3") goodSink).2 rfl

/-! ### Claim C8 -/

/-- C8: for every run of the entry point, whatever the collaborators, the AI
call and the log sink do, the workflow record status column is written exactly
in the order INITIATED, IN_PROGRESS and then exactly one terminal status
(COMPLETED or FAILED): the status is monotonic and receives a single terminal
write per run. -/
theorem C8_status_monotonic_oneTerminalWrite (wtype : String) (collabs : Collaborators)
    (ai : Except String String) (sink : LogSink) (seq0 : List String) :
    (execute_onboarding_workflow wtype collabs ai sink seq0).record.statusHistory
        = ["INITIATED", "IN_PROGRESS", "COMPLETED"] ∨
    (execute_onboarding_workflow wtype collabs ai sink seq0).record.statusHistory
        = ["INITIATED", "IN_PROGRESS", "FAILED"] := by
  unfold execute_onboarding_workflow
  exact finishRun_history _ _ _

/-! ### Claim C9 -/

theorem execute_full_onboarding_ok_summary (collabs : Collaborators)
    (ai : Except String String) (sink : LogSink) (st : RunState) (r : WorkflowResults)
    (h : (execute_full_onboarding collabs ai sink st).1 = .ok r) :
    r.agentsExecuted = ["PROFILING", "DICTIONARY", "MAPPING"] ∧
    r.summary = some (generate_workflow_summary ai
      { agentsExecuted := ["PROFILING", "DICTIONARY", "MAPPING"] }) := by
  cases hP : (controller_step sink "PROFILING" collabs.profiling st).1 with
  | error e => simp [execute_full_onboarding, hP] at h
  | ok p =>
      by_cases hf : p.status = some "FAILED"
      · simp [execute_full_onboarding, hP, hf] at h
      · cases hD : (controller_step sink "DICTIONARY" collabs.dictionary
            (controller_step sink "PROFILING" collabs.profiling st).2).1 with
        | error e => simp [execute_full_onboarding, hP, hf, hD] at h
        | ok d =>
            by_cases hg : d.status = some "FAILED"
            · simp [execute_full_onboarding, hP, hf, hD, hg] at h
            · cases hM : (controller_step sink "MAPPING" collabs.mapping
                  (controller_step sink "DICTIONARY" collabs.dictionary
                    (controller_step sink "PROFILING" collabs.profiling st).2).2).1 with
              | error e => simp [execute_full_onboarding, hP, hf, hD, hg, hM] at h
              | ok m =>
                  by_cases hh : m.status = some "FAILED"
                  · simp [execute_full_onboarding, hP, hf, hD, hg, hM, hh] at h
                  · simp only [execute_full_onboarding, hP, hf, hD, hg, hM, hh,
                      if_neg, ite_false] at h
                    have h2 := h
                    simp only [Except.ok.injEq] at h2
                    subst h2
                    refine ⟨rfl, ?_⟩
                    cases ai <;> rfl

theorem execute_full_onboarding_ai_sameSuccess (collabs : Collaborators)
    (ai1 ai2 : Except String String) (sink : LogSink) (st : RunState) :
    isOkB (execute_full_onboarding collabs ai1 sink st).1
      = isOkB (execute_full_onboarding collabs ai2 sink st).1 := by
  cases hP : (controller_step sink "PROFILING" collabs.profiling st).1 with
  | error e => simp [execute_full_onboarding, hP]
  | ok p =>
      by_cases hf : p.status = some "FAILED"
      · simp [execute_full_onboarding, hP, hf]
      · cases hD : (controller_step sink "DICTIONARY" collabs.dictionary
            (controller_step sink "PROFILING" collabs.profiling st).2).1 with
        | error e => simp [execute_full_onboarding, hP, hf, hD]
        | ok d =>
            by_cases hg : d.status = some "FAILED"
            · simp [execute_full_onboarding, hP, hf, hD, hg]
            · cases hM : (controller_step sink "MAPPING" collabs.mapping
                  (controller_step sink "DICTIONARY" collabs.dictionary
                    (controller_step sink "PROFILING" collabs.profiling st).2).2).1 with
              | error e => simp [execute_full_onboarding, hP, hf, hD, hg, hM]
              | ok m =>
                  by_cases hh : m.status = some "FAILED" <;>
                    simp [execute_full_onboarding, hP, hf, hD, hg, hM, hh, isOkB]

/-- C9: for ONBOARDING runs, the AI summary call never decides the outcome: a
run that completes with the AI call raising carries the deterministic templated
summary, a run that completes with the AI call returning carries the returned
text, and the status history of the persisted record is the same for a raising
and a returning AI call — the fallback always yields a summary string and never
propagates the AI failure. -/
theorem C9_summaryFallback_onCompleted (collabs : Collaborators) (sink : LogSink)
    (seq0 : List String) (s e : String) :
    (∀ r, (execute_onboarding_workflow "ONBOARDING" collabs (.error e) sink seq0).result
        = .ok r → r.summary = some "Workflow completed with 3 agents executed.") ∧
    (∀ r, (execute_onboarding_workflow "ONBOARDING" collabs (.ok s) sink seq0).result
        = .ok r → r.summary = some s) ∧
    (execute_onboarding_workflow "ONBOARDING" collabs (.error e) sink
        seq0).record.statusHistory
      = (execute_onboarding_workflow "ONBOARDING" collabs (.ok s) sink
          seq0).record.statusHistory := by
  refine ⟨?_, ?_, ?_⟩
  · intro r hr
    simp [execute_onboarding_workflow, finishRun_result] at hr
    exact (execute_full_onboarding_ok_summary collabs (.error e) sink _ r hr).2
  · intro r hr
    simp [execute_onboarding_workflow, finishRun_result] at hr
    exact (execute_full_onboarding_ok_summary collabs (.ok s) sink _ r hr).2
  · simp [execute_onboarding_workflow, finishRun_history_isOkB,
      execute_full_onboarding_ai_sameSuccess collabs (.error e) (.ok s) sink]

/-- C9 witness: with all collaborators succeeding and the AI call raising, the
completed run returns exactly the results value carrying the deterministic
templated summary. -/
theorem C9_summaryFallback_witness :
    ({ agentsExecuted := ["PROFILING", "DICTIONARY", "MAPPING"], profiling := some {},
       dictionary := some {}, mapping := some {},
       summary := some "Workflow completed with 3 agents executed.",
       totalDurationSeconds := 3 } : WorkflowResults).summary
      = some "Workflow completed with 3 agents executed." :=
  (C9_summaryFallback_onCompleted allOk goodSink [] "sum" "ai down").1
    { agentsExecuted := ["PROFILING", "DICTIONARY", "MAPPING"], profiling := some {},
      dictionary := some {}, mapping := some {},
      summary := some "Workflow completed with 3 agents executed.",
      totalDurationSeconds := 3 } rfl

/-! ### Claim C10 -/

/-- C10: when a collaborator returns normally but its payload carries status
FAILED (as the profiling agent does when it catches its own exceptions), the
step executor closes the execution-log entry as COMPLETED with that payload as
output snapshot, while the ONBOARDING controller treats the step as failed: the
workflow ends FAILED and the raised error wraps the payload error text — so the
per-step log status and the workflow outcome disagree for value-reported
failures. -/
theorem C10_valueReportedFailure_logVsWorkflow (q : AgentPayload) (call : AgentCall)
    (hq : q.status = some "FAILED") (hc : call.result = .ok q)
    (dcall mcall : AgentCall) (ai : Except String String) (seq0 : List String) :
    (execute_agent goodSink "PROFILING" call).logEntry
      = some { agentName := "PROFILING", status := "COMPLETED", outputResult := some q,
               durationSeconds := some call.duration } ∧
    (execute_onboarding_workflow "ONBOARDING"
        { profiling := call, dictionary := dcall, mapping := mcall } ai goodSink
        seq0).record.statusHistory = ["INITIATED", "IN_PROGRESS", "FAILED"] ∧
    (execute_onboarding_workflow "ONBOARDING"
        { profiling := call, dictionary := dcall, mapping := mcall } ai goodSink
        seq0).result = .error ("Profiling agent failed: " ++ optStr q.error) := by
  refine ⟨?_, ?_, ?_⟩
  · simp [execute_agent, execute_agent_core, goodSink, hc]
  · simp [execute_onboarding_workflow, execute_full_onboarding, finishRun,
      controller_step_goodSink_ok "PROFILING" call q hc, hq]
  · simp [execute_onboarding_workflow, execute_full_onboarding, finishRun,
      controller_step_goodSink_ok "PROFILING" call q hc, hq]

/-- A collaborator call that returns normally with a payload reporting FAILED. -/
def valueFailCall : AgentCall := { result := .ok (failurePayload "denied" 2), duration := 2 }

/-- C10 witness: the theorem applied to a profiling collaborator that returns a
FAILED payload with error text denied. -/
theorem C10_valueReportedFailure_witness :
    (execute_agent goodSink "PROFILING" valueFailCall).logEntry
      = some { agentName := "PROFILING", status := "COMPLETED",
               outputResult := some (failurePayload "denied" 2),
               durationSeconds := some 2 } ∧
    (execute_onboarding_workflow "ONBOARDING"
        { profiling := valueFailCall, dictionary := okCall, mapping := okCall }
        (.ok "s") goodSink []).record.statusHistory
      = ["INITIATED", "IN_PROGRESS", "FAILED"] ∧
    (execute_onboarding_workflow "ONBOARDING"
        { profiling := valueFailCall, dictionary := okCall, mapping := okCall }
        (.ok "s") goodSink []).result
      = .error ("Profiling agent failed: " ++ optStr (failurePayload "denied" 2).error) :=
  C10_valueReportedFailure_logVsWorkflow (failurePayload "denied" 2) valueFailCall
    rfl rfl okCall okCall (.ok "s") []

end Orchestrator
